import Mathlib

/- Shallow embedding of the core logic of the baostock CLI repository:
   the stock-code normalizer `format_stock_code` and the K-line statistics
   routine `display_kline_stats` of stock.py, together with the simplified
   daily-only variant of stock_cli_multi.py.  Strings are modelled as
   `List Char`, prices and volumes as `ℚ`, console output as an explicit
   list of emitted messages. -/

/-- Whitespace predicate used by the Python `str.strip()` model. -/
def wsChar (c : Char) : Bool := c.isWhitespace

/-- Model of Python `str.strip()`: drop whitespace from both ends. -/
def pyStrip (s : List Char) : List Char :=
  (((s.dropWhile wsChar).reverse).dropWhile wsChar).reverse

/-- Error kinds of the normalizer (the two failing branches of
`format_stock_code` in stock.py lines 944-962). -/
inductive FormatError where
  | EmptyInput : FormatError
  | UnrecognizedFormat : List Char → FormatError
deriving DecidableEq

/-- Console messages emitted by `format_stock_code` (stock.py lines 945 and
956-961); the exact rendered text is irrelevant, only which `console.print`
calls fire. -/
inductive ConsoleMsg where
  | emptyCodeError : ConsoleMsg
  | unrecognizedCodeError : List Char → ConsoleMsg
  | formatHintLine : Nat → ConsoleMsg
deriving DecidableEq

def szPre : List Char := ['s', 'z', '.']

def shPre : List Char := ['s', 'h', '.']

/-- Model of Python `str.startswith` on char lists. -/
def startsWithChars : List Char → List Char → Bool
  | [], _ => true
  | _ :: _, [] => false
  | p :: ps, c :: cs => p == c && startsWithChars ps cs

/-- Embedding of `format_stock_code` (stock.py lines 942-964, identical in
stock_cli_multi.py lines 444-466), including the console messages it prints:
the result is the pair (returned value, printed messages).  The source
returns `None` on both failing branches after printing; the branches are
distinguished here by a typed error. -/
def format_stock_code_full (stock_code : List Char) :
    Except FormatError (List Char) × List ConsoleMsg :=
  let t := pyStrip stock_code
  if t = [] then
    (Except.error FormatError.EmptyInput, [ConsoleMsg.emptyCodeError])
  else if startsWithChars szPre t || startsWithChars shPre t then
    (Except.ok t, [])
  else if t.headD ' ' == '0' || t.headD ' ' == '3' then
    (Except.ok (szPre ++ t), [])
  else if t.headD ' ' == '6' then
    (Except.ok (shPre ++ t), [])
  else
    (Except.error (FormatError.UnrecognizedFormat t),
      [ConsoleMsg.unrecognizedCodeError t, ConsoleMsg.formatHintLine 1,
       ConsoleMsg.formatHintLine 2, ConsoleMsg.formatHintLine 3,
       ConsoleMsg.formatHintLine 4, ConsoleMsg.formatHintLine 5])

/-- The value `format_stock_code` hands back to its caller. -/
def format_stock_code (stock_code : List Char) : Except FormatError (List Char) :=
  (format_stock_code_full stock_code).fst

/-- The `stock_code = format_stock_code(stock_code); if not stock_code: return`
step at the top of every command (e.g. stock.py lines 234-236): the caller
forwards the normalizer result and prints nothing of its own. -/
def kline_normalize_step (raw : List Char) : Option (List Char) × List ConsoleMsg :=
  match format_stock_code_full raw with
  | (Except.ok code, msgs) => (some code, msgs)
  | (Except.error _, msgs) => (none, msgs)

/-- One row of the K-line DataFrame.  The source's `open` column is named
`openPrice` because `open` is a Lean keyword; fields unused by the statistics
routine default to zero. -/
structure Bar where
  date : List Char := []
  openPrice : ℚ := 0
  high : ℚ := 0
  low : ℚ := 0
  close : ℚ := 0
  volume : ℚ := 0
  amount : ℚ := 0
  pctChg : ℚ := 0
deriving DecidableEq

/-- The DataFrame handed to `display_kline_stats`: its rows plus which of the
columns consulted by the routine are present (`pctChg` only for daily queries,
`date` for all query field lists in the source). -/
structure DataFrame where
  hasPctChg : Bool
  hasDate : Bool
  bars : List Bar
deriving DecidableEq

def minuteFreqs : List String := ["5m", "15m", "30m", "60m"]

def weekMonthFreqs : List String := ["w", "M"]

/-- Which columns the `kline` command's query produces for each frequency
(stock.py lines 275-304): minute and weekly/monthly field lists lack
`pctChg`, the daily field list has it; all three include `date`. -/
def mkKlineDF (frequency : String) (data_list : List Bar) : DataFrame :=
  if frequency ∈ minuteFreqs then ⟨false, true, data_list⟩
  else if frequency ∈ weekMonthFreqs then ⟨false, true, data_list⟩
  else ⟨true, true, data_list⟩

/-- Model of `Series.pct_change() * 100` for the entries after the first:
each entry is `(cur - prev) / prev * 100`. -/
def pctChangeList (prev : ℚ) : List ℚ → List ℚ
  | [] => []
  | c :: rest => ((c - prev) / prev * 100) :: pctChangeList c rest

/-- Model of `df['close'].pct_change() * 100` followed by `fillna(0)`
(stock.py lines 973-975): first entry 0, then successive relative changes. -/
def derivePct : List ℚ → List ℚ
  | [] => []
  | c :: rest => 0 :: pctChangeList c rest

/-- The per-bar percent-change series the statistics routine classifies on
(stock.py lines 970-975): the `pctChg` column when present, otherwise the
derived changes of the closes. -/
def pctChgSeries (df : DataFrame) : List ℚ :=
  if df.hasPctChg then df.bars.map Bar.pctChg
  else derivePct (df.bars.map Bar.close)

/-- Maximum of a list, as `volumes.max()` on a non-empty series. -/
def listMax : List ℚ → ℚ
  | [] => 0
  | c :: rest => rest.foldl max c

/-- Absolute price change (stock.py line 983). -/
def priceChangeOf (prices : List ℚ) : ℚ :=
  if 1 < prices.length then prices.getLastD 0 - prices.headD 0 else 0

/-- Percent price change (stock.py line 984). -/
def priceChangePctOf (prices : List ℚ) : ℚ :=
  if 1 < prices.length ∧ prices.headD 0 ≠ 0 then
    priceChangeOf prices / prices.headD 0 * 100
  else 0

/-- The investment simulation block (stock.py lines 1060-1070):
(shares bought, final value, profit, profit percent). -/
def investSim (prices : List ℚ) : ℚ × ℚ × ℚ × ℚ :=
  if 1 < prices.length ∧ prices.headD 0 ≠ 0 then
    ((10000 : ℚ) / prices.headD 0,
     (10000 : ℚ) / prices.headD 0 * prices.getLastD 0,
     (10000 : ℚ) / prices.headD 0 * prices.getLastD 0 - 10000,
     ((10000 : ℚ) / prices.headD 0 * prices.getLastD 0 - 10000) / 10000 * 100)
  else (0, 10000, 0, 0)

/-- The summary values computed by the statistics routines (the numbers that
feed the rendered panels). -/
structure Summary where
  totalDays : ℕ
  upDays : ℕ
  downDays : ℕ
  flatDays : ℕ
  upPct : ℚ
  downPct : ℚ
  flatPct : ℚ
  priceChange : ℚ
  priceChangePct : ℚ
  uniqueDays : Option ℕ
  avgVolume : ℚ
  maxVolume : ℚ
  sharesBought : ℚ
  finalValue : ℚ
  profitLoss : ℚ
  profitLossPct : ℚ
deriving DecidableEq

/-- Embedding of `display_kline_stats(df, frequency)` of stock.py
(lines 966-1111). -/
def display_kline_stats (df : DataFrame) (frequency : String) : Summary :=
  let total_days := df.bars.length
  let chgs := pctChgSeries df
  let up_days := (chgs.filter fun c => 0 < c).length
  let down_days := (chgs.filter fun c => c < 0).length
  let flat_days := total_days - up_days - down_days
  let prices := df.bars.map Bar.close
  let unique_days :=
    if frequency ∈ minuteFreqs then
      (if df.hasDate then some ((df.bars.map Bar.date).dedup.length) else none)
    else none
  let volumes := df.bars.map Bar.volume
  { totalDays := total_days
    upDays := up_days
    downDays := down_days
    flatDays := flat_days
    upPct := (up_days : ℚ) / (total_days : ℚ) * 100
    downPct := (down_days : ℚ) / (total_days : ℚ) * 100
    flatPct := (flat_days : ℚ) / (total_days : ℚ) * 100
    priceChange := priceChangeOf prices
    priceChangePct := priceChangePctOf prices
    uniqueDays := unique_days
    avgVolume := if 0 < volumes.length then volumes.sum / (volumes.length : ℚ) else 0
    maxVolume := if 0 < volumes.length then listMax volumes else 0
    sharesBought := (investSim prices).1
    finalValue := (investSim prices).2.1
    profitLoss := (investSim prices).2.2.1
    profitLossPct := (investSim prices).2.2.2 }

/-- Embedding of `display_kline_stats(df)` of stock_cli_multi.py
(lines 468-582): daily-only, the `pctChg` column is read directly and no
distinct-date count is computed. -/
def display_kline_stats_multi (df : List Bar) : Summary :=
  let total_days := df.length
  let chgs := df.map Bar.pctChg
  let up_days := (chgs.filter fun c => 0 < c).length
  let down_days := (chgs.filter fun c => c < 0).length
  let flat_days := total_days - up_days - down_days
  let prices := df.map Bar.close
  let volumes := df.map Bar.volume
  { totalDays := total_days
    upDays := up_days
    downDays := down_days
    flatDays := flat_days
    upPct := (up_days : ℚ) / (total_days : ℚ) * 100
    downPct := (down_days : ℚ) / (total_days : ℚ) * 100
    flatPct := (flat_days : ℚ) / (total_days : ℚ) * 100
    priceChange := priceChangeOf prices
    priceChangePct := priceChangePctOf prices
    uniqueDays := none
    avgVolume := if 0 < volumes.length then volumes.sum / (volumes.length : ℚ) else 0
    maxVolume := if 0 < volumes.length then listMax volumes else 0
    sharesBought := (investSim prices).1
    finalValue := (investSim prices).2.1
    profitLoss := (investSim prices).2.2.1
    profitLossPct := (investSim prices).2.2.2 }

/-- The tail of the `kline` command of stock.py (lines 311-429): after
materialising `data_list` it returns early when the list is empty and
otherwise runs the statistics routine on the frequency-specific DataFrame. -/
def kline_after_fetch (frequency : String) (data_list : List Bar) : Option Summary :=
  if data_list = [] then none
  else some (display_kline_stats (mkKlineDF frequency data_list) frequency)

/-- The per-stock body of the `batch` command of stock.py (lines 1437-1460):
daily query (so the `pctChg` column is present), skip when empty, otherwise
run the statistics routine with its default frequency `d`. -/
def batch_after_fetch (data_list : List Bar) : Option Summary :=
  if data_list = [] then none
  else some (display_kline_stats (mkKlineDF ("d") data_list) ("d"))

/-- The tail of the `kline` command of stock_cli_multi.py (lines 97-160):
return early when `data_list` is empty, otherwise run the simplified
statistics routine. -/
def multi_kline_after_fetch (data_list : List Bar) : Option Summary :=
  if data_list = [] then none
  else some (display_kline_stats_multi data_list)

/-- Daily three-bar example series of the spec's first scenario. -/
def barsC1 : List Bar :=
  [{ close := 10, pctChg := 0 }, { close := 10.5, pctChg := 5 }, { close := 9.8, pctChg := -6.67 }]

/-- Two rising 5-minute bars. -/
def barsC2 : List Bar := [{ close := 10 }, { close := 11 }]

/-- Daily three-bar series used for the investment simulation scenario. -/
def barsC3 : List Bar :=
  [{ close := 10, pctChg := 0 }, { close := 10.5, pctChg := 5 }, { close := 9.8, pctChg := -6.67 }]

/-- Two daily bars with closes 20 and 25. -/
def barsC4 : List Bar := [{ close := 20, pctChg := 0 }, { close := 25, pctChg := 25 }]

/-- Weekly closes 100, 110, 99 of the spec's weekly scenario. -/
def barsC5 : List Bar := [{ close := 100 }, { close := 110 }, { close := 99 }]

/-- Minute bars spanning two distinct calendar dates. -/
def barsC9 : List Bar :=
  [{ date := ("2024-01-02".data), close := 1 }, { date := ("2024-01-02".data), close := 2 },
   { date := ("2024-01-03".data), close := 3 }]

/-- A single daily bar. -/
def barsC10 : List Bar := [{ close := 5 }]

theorem dropWhile_head_not {α : Type} (p : α → Bool) :
    ∀ (l : List α) (c : α) (r : List α), l.dropWhile p = c :: r → p c = false
  | [], c, r, h => by simp [List.dropWhile] at h
  | x :: xs, c, r, h => by
    by_cases hx : p x
    · rw [List.dropWhile, hx] at h
      exact dropWhile_head_not p xs c r h
    · rw [List.dropWhile] at h
      rw [Bool.eq_false_iff.mpr hx] at h
      cases h
      exact Bool.eq_false_iff.mpr hx

theorem dropWhile_cons_of_not {α : Type} (p : α → Bool) (c : α) (l : List α)
    (h : p c = false) : (c :: l).dropWhile p = c :: l := by
  rw [List.dropWhile, h]

theorem dropWhile_decomp {α : Type} (p : α → Bool) :
    ∀ l : List α, ∃ u, l = u ++ l.dropWhile p ∧ ∀ x ∈ u, p x = true
  | [] => ⟨[], by simp [List.dropWhile]⟩
  | x :: xs => by
    by_cases hx : p x
    · obtain ⟨u, hu, hall⟩ := dropWhile_decomp p xs
      refine ⟨x :: u, ?_, ?_⟩
      · rw [List.dropWhile, hx]
        simpa using hu
      · intro y hy
        rcases List.mem_cons.mp hy with rfl | hy
        · exact hx
        · exact hall y hy
    · refine ⟨[], ?_, by simp⟩
      rw [List.dropWhile, Bool.eq_false_iff.mpr hx]
      simp

theorem pyStrip_eq_rdropWhile (s : List Char) :
    pyStrip s = List.rdropWhile wsChar (s.dropWhile wsChar) := rfl

theorem pyStrip_dropWhile (s : List Char) :
    (pyStrip s).dropWhile wsChar = pyStrip s := by
  cases h : pyStrip s with
  | nil => simp
  | cons x t =>
    obtain ⟨u, hu, _⟩ := dropWhile_decomp wsChar (s.dropWhile wsChar).reverse
    have hA : s.dropWhile wsChar = pyStrip s ++ u.reverse := by
      have h2 := congrArg List.reverse hu
      simpa [pyStrip] using h2
    have hx : wsChar x = false := by
      apply dropWhile_head_not wsChar s x (t ++ u.reverse)
      rw [hA, h]
      rfl
    exact dropWhile_cons_of_not _ _ _ hx

theorem pyStrip_idem (s : List Char) : pyStrip (pyStrip s) = pyStrip s := by
  have h1 : pyStrip (pyStrip s) = List.rdropWhile wsChar ((pyStrip s).dropWhile wsChar) := rfl
  rw [h1, pyStrip_dropWhile, pyStrip_eq_rdropWhile]
  exact List.rdropWhile_idempotent wsChar (s.dropWhile wsChar)

theorem pyStrip_rev_dropWhile (s : List Char) :
    (pyStrip s).reverse.dropWhile wsChar = (pyStrip s).reverse := by
  have h1 : (pyStrip s).reverse = (s.dropWhile wsChar).reverse.dropWhile wsChar := by
    simp [pyStrip]
  rw [h1]
  exact List.dropWhile_idempotent wsChar (s.dropWhile wsChar).reverse

theorem pyStrip_cons3 (a b c : Char) (ha : wsChar a = false) (hc : wsChar c = false)
    (s : List Char) : pyStrip (a :: b :: c :: pyStrip s) = a :: b :: c :: pyStrip s := by
  have h1 : (a :: b :: c :: pyStrip s).dropWhile wsChar = a :: b :: c :: pyStrip s :=
    dropWhile_cons_of_not _ _ _ ha
  have h2 : pyStrip (a :: b :: c :: pyStrip s)
      = ((a :: b :: c :: pyStrip s).reverse.dropWhile wsChar).reverse := by
    have h2a : pyStrip (a :: b :: c :: pyStrip s)
        = (((a :: b :: c :: pyStrip s).dropWhile wsChar).reverse.dropWhile wsChar).reverse := rfl
    rw [h2a, h1]
  have h3 : (a :: b :: c :: pyStrip s).reverse = (pyStrip s).reverse ++ [c, b, a] := by
    simp
  have h4 : ((pyStrip s).reverse ++ [c, b, a]).dropWhile wsChar
      = (pyStrip s).reverse ++ [c, b, a] := by
    cases ht : (pyStrip s).reverse with
    | nil =>
      simpa [ht] using dropWhile_cons_of_not wsChar c [b, a] hc
    | cons d r =>
      have h5 : (pyStrip s).reverse.dropWhile wsChar = d :: r := by
        rw [pyStrip_rev_dropWhile]
        exact ht
      have hd : wsChar d = false :=
        dropWhile_head_not wsChar (pyStrip s).reverse d r h5
      exact dropWhile_cons_of_not wsChar d (r ++ [c, b, a]) hd
  rw [h2, h3, h4]
  simp

theorem startsWithChars_append (p l : List Char) : startsWithChars p (p ++ l) = true := by
  induction p with
  | nil => rfl
  | cons c cs ih => simp [startsWithChars, ih]

theorem fsc_full_empty (s : List Char) (h : pyStrip s = []) :
    format_stock_code_full s
      = (Except.error FormatError.EmptyInput, [ConsoleMsg.emptyCodeError]) := by
  simp [format_stock_code_full, h]

theorem fsc_full_canonical (s : List Char) (h0 : pyStrip s ≠ [])
    (h1 : (startsWithChars szPre (pyStrip s) || startsWithChars shPre (pyStrip s)) = true) :
    format_stock_code_full s = (Except.ok (pyStrip s), []) := by
  simp [format_stock_code_full, h0, h1]

theorem fsc_full_sz (s : List Char) (h0 : pyStrip s ≠ [])
    (h1 : (startsWithChars szPre (pyStrip s) || startsWithChars shPre (pyStrip s)) = false)
    (h2 : ((pyStrip s).headD ' ' == '0' || (pyStrip s).headD ' ' == '3') = true) :
    format_stock_code_full s = (Except.ok (szPre ++ pyStrip s), []) := by
  have hn1 : ¬ (startsWithChars szPre (pyStrip s) || startsWithChars shPre (pyStrip s)) = true := by
    rw [h1]
    exact Bool.false_ne_true
  simp only [format_stock_code_full]
  rw [if_neg h0, if_neg hn1, if_pos h2]

theorem fsc_full_sh (s : List Char) (h0 : pyStrip s ≠ [])
    (h1 : (startsWithChars szPre (pyStrip s) || startsWithChars shPre (pyStrip s)) = false)
    (h2 : ((pyStrip s).headD ' ' == '0' || (pyStrip s).headD ' ' == '3') = false)
    (h3 : ((pyStrip s).headD ' ' == '6') = true) :
    format_stock_code_full s = (Except.ok (shPre ++ pyStrip s), []) := by
  have hn1 : ¬ (startsWithChars szPre (pyStrip s) || startsWithChars shPre (pyStrip s)) = true := by
    rw [h1]
    exact Bool.false_ne_true
  have hn2 : ¬ ((pyStrip s).headD ' ' == '0' || (pyStrip s).headD ' ' == '3') = true := by
    rw [h2]
    exact Bool.false_ne_true
  simp only [format_stock_code_full]
  rw [if_neg h0, if_neg hn1, if_neg hn2, if_pos h3]

theorem fsc_full_unrecognized (s : List Char) (h0 : pyStrip s ≠ [])
    (h1 : (startsWithChars szPre (pyStrip s) || startsWithChars shPre (pyStrip s)) = false)
    (h2 : ((pyStrip s).headD ' ' == '0' || (pyStrip s).headD ' ' == '3') = false)
    (h3 : ((pyStrip s).headD ' ' == '6') = false) :
    format_stock_code_full s
      = (Except.error (FormatError.UnrecognizedFormat (pyStrip s)),
         [ConsoleMsg.unrecognizedCodeError (pyStrip s), ConsoleMsg.formatHintLine 1,
          ConsoleMsg.formatHintLine 2, ConsoleMsg.formatHintLine 3,
          ConsoleMsg.formatHintLine 4, ConsoleMsg.formatHintLine 5]) := by
  have hn1 : ¬ (startsWithChars szPre (pyStrip s) || startsWithChars shPre (pyStrip s)) = true := by
    rw [h1]
    exact Bool.false_ne_true
  have hn2 : ¬ ((pyStrip s).headD ' ' == '0' || (pyStrip s).headD ' ' == '3') = true := by
    rw [h2]
    exact Bool.false_ne_true
  have hn3 : ¬ ((pyStrip s).headD ' ' == '6') = true := by
    rw [h3]
    exact Bool.false_ne_true
  simp only [format_stock_code_full]
  rw [if_neg h0, if_neg hn1, if_neg hn2, if_neg hn3]

theorem fsc_cases (s : List Char) :
    pyStrip s = []
    ∨ (pyStrip s ≠ []
        ∧ (startsWithChars szPre (pyStrip s) || startsWithChars shPre (pyStrip s)) = true)
    ∨ (pyStrip s ≠ []
        ∧ (startsWithChars szPre (pyStrip s) || startsWithChars shPre (pyStrip s)) = false
        ∧ ((pyStrip s).headD ' ' == '0' || (pyStrip s).headD ' ' == '3') = true)
    ∨ (pyStrip s ≠ []
        ∧ (startsWithChars szPre (pyStrip s) || startsWithChars shPre (pyStrip s)) = false
        ∧ ((pyStrip s).headD ' ' == '0' || (pyStrip s).headD ' ' == '3') = false
        ∧ ((pyStrip s).headD ' ' == '6') = true)
    ∨ (pyStrip s ≠ []
        ∧ (startsWithChars szPre (pyStrip s) || startsWithChars shPre (pyStrip s)) = false
        ∧ ((pyStrip s).headD ' ' == '0' || (pyStrip s).headD ' ' == '3') = false
        ∧ ((pyStrip s).headD ' ' == '6') = false) := by
  by_cases h0 : pyStrip s = []
  · exact Or.inl h0
  · by_cases h1 : (startsWithChars szPre (pyStrip s) || startsWithChars shPre (pyStrip s)) = true
    · exact Or.inr (Or.inl ⟨h0, h1⟩)
    · have h1f := Bool.eq_false_iff.mpr h1
      by_cases h2 : ((pyStrip s).headD ' ' == '0' || (pyStrip s).headD ' ' == '3') = true
      · exact Or.inr (Or.inr (Or.inl ⟨h0, h1f, h2⟩))
      · have h2f := Bool.eq_false_iff.mpr h2
        by_cases h3 : ((pyStrip s).headD ' ' == '6') = true
        · exact Or.inr (Or.inr (Or.inr (Or.inl ⟨h0, h1f, h2f, h3⟩)))
        · exact Or.inr (Or.inr (Or.inr (Or.inr ⟨h0, h1f, h2f, Bool.eq_false_iff.mpr h3⟩)))

theorem canonical_not_nil (t : List Char)
    (h : (startsWithChars szPre t || startsWithChars shPre t) = true) : t ≠ [] := by
  intro he
  rw [he] at h
  exact absurd h (by decide)

theorem fsc_canonical_noop (s : List Char) (h1 : pyStrip s = s)
    (h2 : (startsWithChars szPre s || startsWithChars shPre s) = true) :
    format_stock_code s = Except.ok s := by
  have h0 : pyStrip s ≠ [] := by
    rw [h1]
    exact canonical_not_nil s h2
  have hc := fsc_full_canonical s h0 (by rw [h1]; exact h2)
  unfold format_stock_code
  rw [hc, h1]

theorem fsc_ok_cases (s r : List Char) (h : format_stock_code s = Except.ok r) :
    (r = pyStrip s ∧ (startsWithChars szPre r || startsWithChars shPre r) = true)
    ∨ r = szPre ++ pyStrip s ∨ r = shPre ++ pyStrip s := by
  rcases fsc_cases s with h0 | ⟨h0, h1⟩ | ⟨h0, h1, h2⟩ | ⟨h0, h1, h2, h3⟩ | ⟨h0, h1, h2, h3⟩
  · unfold format_stock_code at h
    rw [fsc_full_empty s h0] at h
    simp at h
  · unfold format_stock_code at h
    rw [fsc_full_canonical s h0 h1] at h
    simp at h
    exact Or.inl ⟨h.symm, by rw [← h]; exact h1⟩
  · unfold format_stock_code at h
    rw [fsc_full_sz s h0 h1 h2] at h
    simp at h
    exact Or.inr (Or.inl h.symm)
  · unfold format_stock_code at h
    rw [fsc_full_sh s h0 h1 h2 h3] at h
    simp at h
    exact Or.inr (Or.inr h.symm)
  · unfold format_stock_code at h
    rw [fsc_full_unrecognized s h0 h1 h2 h3] at h
    simp at h

theorem stats_totalDays (df : DataFrame) (freq : String) :
    (display_kline_stats df freq).totalDays = df.bars.length := rfl

theorem stats_upDays (df : DataFrame) (freq : String) :
    (display_kline_stats df freq).upDays
      = ((pctChgSeries df).filter fun c => 0 < c).length := rfl

theorem stats_downDays (df : DataFrame) (freq : String) :
    (display_kline_stats df freq).downDays
      = ((pctChgSeries df).filter fun c => c < 0).length := rfl

theorem stats_flatDays (df : DataFrame) (freq : String) :
    (display_kline_stats df freq).flatDays
      = df.bars.length - ((pctChgSeries df).filter fun c => 0 < c).length
          - ((pctChgSeries df).filter fun c => c < 0).length := rfl

theorem stats_priceChange (df : DataFrame) (freq : String) :
    (display_kline_stats df freq).priceChange = priceChangeOf (df.bars.map Bar.close) := rfl

theorem stats_priceChangePct (df : DataFrame) (freq : String) :
    (display_kline_stats df freq).priceChangePct = priceChangePctOf (df.bars.map Bar.close) := rfl

theorem stats_uniqueDays (df : DataFrame) (freq : String) :
    (display_kline_stats df freq).uniqueDays
      = if freq ∈ minuteFreqs then
          (if df.hasDate then some ((df.bars.map Bar.date).dedup.length) else none)
        else none := rfl

theorem stats_sharesBought (df : DataFrame) (freq : String) :
    (display_kline_stats df freq).sharesBought = (investSim (df.bars.map Bar.close)).1 := rfl

theorem stats_finalValue (df : DataFrame) (freq : String) :
    (display_kline_stats df freq).finalValue = (investSim (df.bars.map Bar.close)).2.1 := rfl

theorem stats_profitLoss (df : DataFrame) (freq : String) :
    (display_kline_stats df freq).profitLoss = (investSim (df.bars.map Bar.close)).2.2.1 := rfl

theorem stats_profitLossPct (df : DataFrame) (freq : String) :
    (display_kline_stats df freq).profitLossPct = (investSim (df.bars.map Bar.close)).2.2.2 := rfl

theorem multi_totalDays (bars : List Bar) :
    (display_kline_stats_multi bars).totalDays = bars.length := rfl

theorem multi_upDays (bars : List Bar) :
    (display_kline_stats_multi bars).upDays
      = ((bars.map Bar.pctChg).filter fun c => 0 < c).length := rfl

theorem multi_downDays (bars : List Bar) :
    (display_kline_stats_multi bars).downDays
      = ((bars.map Bar.pctChg).filter fun c => c < 0).length := rfl

theorem multi_flatDays (bars : List Bar) :
    (display_kline_stats_multi bars).flatDays
      = bars.length - ((bars.map Bar.pctChg).filter fun c => 0 < c).length
          - ((bars.map Bar.pctChg).filter fun c => c < 0).length := rfl

theorem multi_priceChange (bars : List Bar) :
    (display_kline_stats_multi bars).priceChange = priceChangeOf (bars.map Bar.close) := rfl

theorem multi_priceChangePct (bars : List Bar) :
    (display_kline_stats_multi bars).priceChangePct = priceChangePctOf (bars.map Bar.close) := rfl

theorem multi_sharesBought (bars : List Bar) :
    (display_kline_stats_multi bars).sharesBought = (investSim (bars.map Bar.close)).1 := rfl

theorem multi_finalValue (bars : List Bar) :
    (display_kline_stats_multi bars).finalValue = (investSim (bars.map Bar.close)).2.1 := rfl

theorem multi_profitLoss (bars : List Bar) :
    (display_kline_stats_multi bars).profitLoss = (investSim (bars.map Bar.close)).2.2.1 := rfl

theorem multi_profitLossPct (bars : List Bar) :
    (display_kline_stats_multi bars).profitLossPct = (investSim (bars.map Bar.close)).2.2.2 := rfl

theorem mkKlineDF_bars (freq : String) (data_list : List Bar) :
    (mkKlineDF freq data_list).bars = data_list := by
  unfold mkKlineDF
  split_ifs <;> rfl

theorem mkKlineDF_minute (freq : String) (h : freq ∈ minuteFreqs) (data_list : List Bar) :
    mkKlineDF freq data_list = ⟨false, true, data_list⟩ := by
  unfold mkKlineDF
  rw [if_pos h]

theorem pctChgSeries_false (hd : Bool) (bars : List Bar) :
    pctChgSeries ⟨false, hd, bars⟩ = derivePct (bars.map Bar.close) := rfl

theorem filter_sign_partition (l : List ℚ) :
    (l.filter fun c => 0 < c).length + (l.filter fun c => c < 0).length
      + (l.filter fun c => c = 0).length = l.length := by
  induction l with
  | nil => simp
  | cons c l ih =>
    rcases lt_trichotomy c 0 with h | h | h
    · have h1 : ¬ (0 < c) := by linarith
      have h2 : ¬ (c = 0) := ne_of_lt h
      rw [List.filter_cons, List.filter_cons, List.filter_cons]
      rw [if_neg (by simpa using h1), if_pos (by simpa using h), if_neg (by simpa using h2)]
      simp only [List.length_cons]
      omega
    · have h1 : ¬ (0 < c) := by rw [h]; exact lt_irrefl 0
      have h2 : ¬ (c < 0) := by rw [h]; exact lt_irrefl 0
      rw [List.filter_cons, List.filter_cons, List.filter_cons]
      rw [if_neg (by simpa using h1), if_neg (by simpa using h2), if_pos (by simpa using h)]
      simp only [List.length_cons]
      omega
    · have h1 : ¬ (c < 0) := by linarith
      have h2 : ¬ (c = 0) := ne_of_gt h
      rw [List.filter_cons, List.filter_cons, List.filter_cons]
      rw [if_pos (by simpa using h), if_neg (by simpa using h1), if_neg (by simpa using h2)]
      simp only [List.length_cons]
      omega

theorem pctChangeList_length (prev : ℚ) (l : List ℚ) :
    (pctChangeList prev l).length = l.length := by
  induction l generalizing prev with
  | nil => rfl
  | cons c r ih => simp [pctChangeList, ih]

theorem derivePct_length (l : List ℚ) : (derivePct l).length = l.length := by
  cases l with
  | nil => rfl
  | cons c r => simp [derivePct, pctChangeList_length]

theorem pctChgSeries_length (df : DataFrame) :
    (pctChgSeries df).length = df.bars.length := by
  unfold pctChgSeries
  split
  · simp
  · rw [derivePct_length]
    simp

theorem pctChangeList_getElem? (l : List ℚ) (prev : ℚ) (i : ℕ) :
    (pctChangeList prev l)[i]? =
      match (prev :: l)[i]?, l[i]? with
      | some p, some c => some ((c - p) / p * 100)
      | some _, none => none
      | none, _ => none := by
  induction l generalizing prev i with
  | nil => cases i <;> rfl
  | cons c r ih =>
    cases i with
    | zero => simp [pctChangeList]
    | succ j =>
      have h1 : (pctChangeList prev (c :: r))[j + 1]? = (pctChangeList c r)[j]? := by
        simp [pctChangeList]
      rw [h1, ih c j, List.getElem?_cons_succ, List.getElem?_cons_succ]

theorem derivePct_getElem?_zero (l : List ℚ) (h : l ≠ []) : (derivePct l)[0]? = some 0 := by
  cases l with
  | nil => exact absurd rfl h
  | cons c r => simp [derivePct]

theorem derivePct_getElem?_succ (l : List ℚ) (i : ℕ) (h : i + 1 < l.length) :
    (derivePct l)[i + 1]? = some ((l[i + 1] - l[i]) / l[i] * 100) := by
  cases l with
  | nil => simp at h
  | cons c r =>
    have hi : i < r.length := by
      simp only [List.length_cons] at h
      omega
    have h1 : (derivePct (c :: r))[i + 1]? = (pctChangeList c r)[i]? := by
      simp [derivePct]
    rw [h1, pctChangeList_getElem? r c i]
    have h2 : (c :: r)[i]? = some ((c :: r)[i]) := List.getElem?_eq_getElem (by simpa using Nat.lt_succ_of_lt hi)
    have h3 : r[i]? = some (r[i]) := List.getElem?_eq_getElem hi
    rw [h2, h3]
    have h4 : (c :: r)[i + 1] = r[i] := List.getElem_cons_succ c r i (by simpa using hi)
    simp [h4]

theorem investSim_pos (prices : List ℚ) (h1 : 1 < prices.length) (h2 : prices.headD 0 ≠ 0) :
    investSim prices =
      ((10000 : ℚ) / prices.headD 0,
       (10000 : ℚ) / prices.headD 0 * prices.getLastD 0,
       (10000 : ℚ) / prices.headD 0 * prices.getLastD 0 - 10000,
       ((10000 : ℚ) / prices.headD 0 * prices.getLastD 0 - 10000) / 10000 * 100) := by
  unfold investSim
  rw [if_pos ⟨h1, h2⟩]

theorem investSim_degenerate (prices : List ℚ)
    (h : prices.length = 1 ∨ prices.headD 0 = 0) :
    investSim prices = (0, 10000, 0, 0) := by
  unfold investSim
  rw [if_neg]
  rintro ⟨h1, h2⟩
  rcases h with h | h
  · omega
  · exact h2 h

theorem priceChangeOf_pos (prices : List ℚ) (h : 1 < prices.length) :
    priceChangeOf prices = prices.getLastD 0 - prices.headD 0 := by
  unfold priceChangeOf
  rw [if_pos h]

theorem priceChangeOf_single (prices : List ℚ) (h : prices.length = 1) :
    priceChangeOf prices = 0 := by
  unfold priceChangeOf
  rw [if_neg (by omega)]

theorem priceChangePctOf_pos (prices : List ℚ) (h1 : 1 < prices.length)
    (h2 : prices.headD 0 ≠ 0) :
    priceChangePctOf prices = priceChangeOf prices / prices.headD 0 * 100 := by
  unfold priceChangePctOf
  rw [if_pos ⟨h1, h2⟩]

theorem priceChangePctOf_zero (prices : List ℚ)
    (h : prices.length = 1 ∨ prices.headD 0 = 0) :
    priceChangePctOf prices = 0 := by
  unfold priceChangePctOf
  rw [if_neg]
  rintro ⟨h1, h2⟩
  rcases h with h | h
  · omega
  · exact h2 h

/-- Claim C1: for every non-empty series, the trend counts partition the bars
for both statistics routines: up + down + flat equals the total bar count,
where a bar counts as up when its percent-change is positive, down when it is
negative, and flat otherwise (flat equals the number of zero changes). -/
theorem C1_trend_partition :
    (∀ (df : DataFrame) (freq : String), df.bars ≠ [] →
        (display_kline_stats df freq).upDays + (display_kline_stats df freq).downDays
            + (display_kline_stats df freq).flatDays = (display_kline_stats df freq).totalDays
          ∧ (display_kline_stats df freq).flatDays
              = ((pctChgSeries df).filter fun c => c = 0).length)
    ∧ (∀ bars : List Bar, bars ≠ [] →
        (display_kline_stats_multi bars).upDays + (display_kline_stats_multi bars).downDays
            + (display_kline_stats_multi bars).flatDays
            = (display_kline_stats_multi bars).totalDays
          ∧ (display_kline_stats_multi bars).flatDays
              = ((bars.map Bar.pctChg).filter fun c => c = 0).length) := by
  constructor
  · intro df freq _
    have hp := filter_sign_partition (pctChgSeries df)
    have hl := pctChgSeries_length df
    rw [stats_upDays, stats_downDays, stats_flatDays, stats_totalDays]
    omega
  · intro bars _
    have hp := filter_sign_partition (bars.map Bar.pctChg)
    have hl : (bars.map Bar.pctChg).length = bars.length := List.length_map bars Bar.pctChg
    rw [multi_upDays, multi_downDays, multi_flatDays, multi_totalDays]
    omega

/-- Witness for C1 at the spec's three-bar daily scenario. -/
theorem C1_trend_partition_witness :
    (display_kline_stats_multi barsC1).upDays + (display_kline_stats_multi barsC1).downDays
        + (display_kline_stats_multi barsC1).flatDays
        = (display_kline_stats_multi barsC1).totalDays :=
  (C1_trend_partition.2 barsC1 (List.cons_ne_nil _ _)).1

/-- Claim C9: for every non-empty minute-frequency series, the reported
distinct-date count equals the cardinality of the set of date components of
the bars. -/
theorem C9_unique_dates (freq : String) (hf : freq ∈ minuteFreqs) (bars : List Bar)
    (_hne : bars ≠ []) :
    (display_kline_stats (mkKlineDF freq bars) freq).uniqueDays
      = some ((bars.map Bar.date).toFinset.card) := by
  rw [mkKlineDF_minute freq hf bars, stats_uniqueDays, if_pos hf]
  simp [List.card_toFinset]

/-- Witness for C9: three 5-minute bars across two distinct dates. -/
theorem C9_unique_dates_witness :
    (display_kline_stats (mkKlineDF ("5m") barsC9) ("5m")).uniqueDays = some 2 := by
  have h := C9_unique_dates ("5m") (by decide) barsC9 (List.cons_ne_nil _ _)
  rw [h]
  decide

/-- Claim C10: each of the three call sites of the statistics routines guards
against an empty fetched series, so whenever a run reaches the routine the
bar count (the divisor of the trend-distribution percentages) is positive. -/
theorem C10_empty_guard :
    (∀ (freq : String) (data_list : List Bar) (s : Summary),
        kline_after_fetch freq data_list = some s → 0 < s.totalDays)
    ∧ (∀ (data_list : List Bar) (s : Summary),
        batch_after_fetch data_list = some s → 0 < s.totalDays)
    ∧ (∀ (data_list : List Bar) (s : Summary),
        multi_kline_after_fetch data_list = some s → 0 < s.totalDays) := by
  refine ⟨?_, ?_, ?_⟩
  · intro freq data s h
    unfold kline_after_fetch at h
    by_cases hd : data = []
    · rw [if_pos hd] at h
      cases h
    · rw [if_neg hd] at h
      have hs := Option.some.inj h
      rw [← hs, stats_totalDays, mkKlineDF_bars]
      exact List.length_pos.mpr hd
  · intro data s h
    unfold batch_after_fetch at h
    by_cases hd : data = []
    · rw [if_pos hd] at h
      cases h
    · rw [if_neg hd] at h
      have hs := Option.some.inj h
      rw [← hs, stats_totalDays, mkKlineDF_bars]
      exact List.length_pos.mpr hd
  · intro data s h
    unfold multi_kline_after_fetch at h
    by_cases hd : data = []
    · rw [if_pos hd] at h
      cases h
    · rw [if_neg hd] at h
      have hs := Option.some.inj h
      rw [← hs, multi_totalDays]
      exact List.length_pos.mpr hd

/-- Witness for C10 at a one-bar daily fetch. -/
theorem C10_empty_guard_witness :
    0 < (display_kline_stats (mkKlineDF ("d") barsC10) ("d")).totalDays :=
  C10_empty_guard.1 ("d") barsC10 (display_kline_stats (mkKlineDF ("d") barsC10) ("d"))
    (by rw [kline_after_fetch, if_neg (by simp [barsC10])])

/-- Claim C3: both statistics routines simulate investing the fixed notional
10000: with more than one bar and a nonzero first close, shares equal
10000 divided by the first close, the final value is shares times the last
close, profit is final value minus 10000 and profit percent is profit over
10000 times 100; with a single bar or a zero first close the simulation is a
no-op with final value 10000 and profit 0. -/
theorem C3_investment :
    (∀ (df : DataFrame) (freq : String),
        (1 < df.bars.length → (df.bars.map Bar.close).headD 0 ≠ 0 →
          (display_kline_stats df freq).sharesBought = 10000 / (df.bars.map Bar.close).headD 0
            ∧ (display_kline_stats df freq).finalValue
                = (display_kline_stats df freq).sharesBought * (df.bars.map Bar.close).getLastD 0
            ∧ (display_kline_stats df freq).profitLoss
                = (display_kline_stats df freq).finalValue - 10000
            ∧ (display_kline_stats df freq).profitLossPct
                = (display_kline_stats df freq).profitLoss / 10000 * 100)
          ∧ (df.bars.length = 1 ∨ (df.bars.map Bar.close).headD 0 = 0 →
              (display_kline_stats df freq).finalValue = 10000
                ∧ (display_kline_stats df freq).profitLoss = 0))
    ∧ (∀ bars : List Bar,
        (1 < bars.length → (bars.map Bar.close).headD 0 ≠ 0 →
          (display_kline_stats_multi bars).sharesBought = 10000 / (bars.map Bar.close).headD 0
            ∧ (display_kline_stats_multi bars).finalValue
                = (display_kline_stats_multi bars).sharesBought * (bars.map Bar.close).getLastD 0
            ∧ (display_kline_stats_multi bars).profitLoss
                = (display_kline_stats_multi bars).finalValue - 10000
            ∧ (display_kline_stats_multi bars).profitLossPct
                = (display_kline_stats_multi bars).profitLoss / 10000 * 100)
          ∧ (bars.length = 1 ∨ (bars.map Bar.close).headD 0 = 0 →
              (display_kline_stats_multi bars).finalValue = 10000
                ∧ (display_kline_stats_multi bars).profitLoss = 0)) := by
  constructor
  · intro df freq
    constructor
    · intro h1 h2
      have hl : 1 < (df.bars.map Bar.close).length := by simpa using h1
      have hi := investSim_pos (df.bars.map Bar.close) hl h2
      rw [stats_sharesBought, stats_finalValue, stats_profitLoss, stats_profitLossPct, hi]
      exact ⟨rfl, rfl, rfl, rfl⟩
    · intro h
      have h' : (df.bars.map Bar.close).length = 1 ∨ (df.bars.map Bar.close).headD 0 = 0 := by
        rcases h with h | h
        · exact Or.inl (by simpa using h)
        · exact Or.inr h
      have hi := investSim_degenerate (df.bars.map Bar.close) h'
      rw [stats_finalValue, stats_profitLoss, hi]
      exact ⟨rfl, rfl⟩
  · intro bars
    constructor
    · intro h1 h2
      have hl : 1 < (bars.map Bar.close).length := by simpa using h1
      have hi := investSim_pos (bars.map Bar.close) hl h2
      rw [multi_sharesBought, multi_finalValue, multi_profitLoss, multi_profitLossPct, hi]
      exact ⟨rfl, rfl, rfl, rfl⟩
    · intro h
      have h' : (bars.map Bar.close).length = 1 ∨ (bars.map Bar.close).headD 0 = 0 := by
        rcases h with h | h
        · exact Or.inl (by simpa using h)
        · exact Or.inr h
      have hi := investSim_degenerate (bars.map Bar.close) h'
      rw [multi_finalValue, multi_profitLoss, hi]
      exact ⟨rfl, rfl⟩

/-- Witness for C3 at the spec's daily scenario with first close 10. -/
theorem C3_investment_witness :
    (display_kline_stats_multi barsC3).sharesBought = 10000 / ((barsC3.map Bar.close).headD 0)
      ∧ (display_kline_stats_multi barsC3).finalValue
          = (display_kline_stats_multi barsC3).sharesBought * ((barsC3.map Bar.close).getLastD 0)
      ∧ (display_kline_stats_multi barsC3).profitLoss
          = (display_kline_stats_multi barsC3).finalValue - 10000
      ∧ (display_kline_stats_multi barsC3).profitLossPct
          = (display_kline_stats_multi barsC3).profitLoss / 10000 * 100 :=
  (C3_investment.2 barsC3).1 (by norm_num [barsC3]) (by norm_num [barsC3])

/-- Claim C4: for both statistics routines, with more than one bar the
absolute price change is the last close minus the first close; the percent
change is that difference over the first close times 100 when the first close
is nonzero, and 0 when the first close is zero; with a single bar both fields
are 0. -/
theorem C4_price_change :
    (∀ (df : DataFrame) (freq : String),
        (1 < df.bars.length →
          (display_kline_stats df freq).priceChange
              = (df.bars.map Bar.close).getLastD 0 - (df.bars.map Bar.close).headD 0
            ∧ ((df.bars.map Bar.close).headD 0 ≠ 0 →
                (display_kline_stats df freq).priceChangePct
                  = (display_kline_stats df freq).priceChange
                      / (df.bars.map Bar.close).headD 0 * 100)
            ∧ ((df.bars.map Bar.close).headD 0 = 0 →
                (display_kline_stats df freq).priceChangePct = 0))
          ∧ (df.bars.length = 1 →
              (display_kline_stats df freq).priceChange = 0
                ∧ (display_kline_stats df freq).priceChangePct = 0))
    ∧ (∀ bars : List Bar,
        (1 < bars.length →
          (display_kline_stats_multi bars).priceChange
              = (bars.map Bar.close).getLastD 0 - (bars.map Bar.close).headD 0
            ∧ ((bars.map Bar.close).headD 0 ≠ 0 →
                (display_kline_stats_multi bars).priceChangePct
                  = (display_kline_stats_multi bars).priceChange
                      / (bars.map Bar.close).headD 0 * 100)
            ∧ ((bars.map Bar.close).headD 0 = 0 →
                (display_kline_stats_multi bars).priceChangePct = 0))
          ∧ (bars.length = 1 →
              (display_kline_stats_multi bars).priceChange = 0
                ∧ (display_kline_stats_multi bars).priceChangePct = 0)) := by
  constructor
  · intro df freq
    constructor
    · intro h1
      have hl : 1 < (df.bars.map Bar.close).length := by simpa using h1
      refine ⟨?_, ?_, ?_⟩
      · rw [stats_priceChange, priceChangeOf_pos _ hl]
      · intro h2
        rw [stats_priceChangePct, stats_priceChange, priceChangePctOf_pos _ hl h2]
      · intro h2
        rw [stats_priceChangePct, priceChangePctOf_zero _ (Or.inr h2)]
    · intro h1
      have hl : (df.bars.map Bar.close).length = 1 := by simpa using h1
      constructor
      · rw [stats_priceChange, priceChangeOf_single _ hl]
      · rw [stats_priceChangePct, priceChangePctOf_zero _ (Or.inl hl)]
  · intro bars
    constructor
    · intro h1
      have hl : 1 < (bars.map Bar.close).length := by simpa using h1
      refine ⟨?_, ?_, ?_⟩
      · rw [multi_priceChange, priceChangeOf_pos _ hl]
      · intro h2
        rw [multi_priceChangePct, multi_priceChange, priceChangePctOf_pos _ hl h2]
      · intro h2
        rw [multi_priceChangePct, priceChangePctOf_zero _ (Or.inr h2)]
    · intro h1
      have hl : (bars.map Bar.close).length = 1 := by simpa using h1
      constructor
      · rw [multi_priceChange, priceChangeOf_single _ hl]
      · rw [multi_priceChangePct, priceChangePctOf_zero _ (Or.inl hl)]

/-- Witness for C4 at a two-bar series with closes 20 and 25. -/
theorem C4_price_change_witness :
    (display_kline_stats_multi barsC4).priceChange
        = (barsC4.map Bar.close).getLastD 0 - (barsC4.map Bar.close).headD 0 :=
  ((C4_price_change.2 barsC4).1 (by norm_num [barsC4])).1

/-- Claim C5: when the series lacks a per-bar percent-change column, the
routine classifies on the derived change list, whose entry i (for i > 0) is
(close[i] - close[i-1]) / close[i-1] * 100 and whose first entry is exactly
0; for weekly closes 100, 110, 99 the derived changes are 0, 10, -10 and the
classification yields up = 1, down = 1, flat = 1. -/
theorem C5_derived_changes :
    (∀ df : DataFrame, df.hasPctChg = false →
        pctChgSeries df = derivePct (df.bars.map Bar.close))
    ∧ (∀ closes : List ℚ, closes ≠ [] → (derivePct closes)[0]? = some 0)
    ∧ (∀ (closes : List ℚ) (i : ℕ) (h : i + 1 < closes.length),
        (derivePct closes)[i + 1]? = some ((closes[i + 1] - closes[i]) / closes[i] * 100))
    ∧ derivePct (barsC5.map Bar.close) = [0, 10, -10]
    ∧ (display_kline_stats (mkKlineDF ("w") barsC5) ("w")).upDays = 1
    ∧ (display_kline_stats (mkKlineDF ("w") barsC5) ("w")).downDays = 1
    ∧ (display_kline_stats (mkKlineDF ("w") barsC5) ("w")).flatDays = 1 := by
  refine ⟨?_, derivePct_getElem?_zero, derivePct_getElem?_succ, ?_, ?_, ?_, ?_⟩
  · intro df h
    unfold pctChgSeries
    rw [h]
    simp
  · norm_num [barsC5, derivePct, pctChangeList]
  · norm_num [display_kline_stats, mkKlineDF, pctChgSeries, derivePct, pctChangeList,
      minuteFreqs, weekMonthFreqs, barsC5, List.filter]
  · norm_num [display_kline_stats, mkKlineDF, pctChgSeries, derivePct, pctChangeList,
      minuteFreqs, weekMonthFreqs, barsC5, List.filter]
  · norm_num [display_kline_stats, mkKlineDF, pctChgSeries, derivePct, pctChangeList,
      minuteFreqs, weekMonthFreqs, barsC5, List.filter]

/-- Witness for C5 at the weekly closes 100, 110, 99 and index 1. -/
theorem C5_derived_changes_witness :
    (derivePct [(100 : ℚ), 110, 99])[1 + 1]?
      = some (([(100 : ℚ), 110, 99][1 + 1] - [(100 : ℚ), 110, 99][1])
          / [(100 : ℚ), 110, 99][1] * 100) :=
  C5_derived_changes.2.2.1 ([100, 110, 99]) 1 (by norm_num)

/-- Claim C2 (amended): for minute frequencies the statistics routine does
not force every bar to be flat; because the minute query lacks the `pctChg`
column, the routine derives per-bar percent changes from consecutive closes
exactly as for weekly/monthly data and classifies up/down/flat on them, so
its trend counts coincide with the weekly classification of the same bars,
while the volume and price-change aggregates are computed as usual. -/
theorem C2_minute_classification (freq : String) (hf : freq ∈ minuteFreqs)
    (bars : List Bar) :
    (display_kline_stats (mkKlineDF freq bars) freq).upDays
        = ((derivePct (bars.map Bar.close)).filter fun c => 0 < c).length
      ∧ (display_kline_stats (mkKlineDF freq bars) freq).downDays
          = ((derivePct (bars.map Bar.close)).filter fun c => c < 0).length
      ∧ (display_kline_stats (mkKlineDF freq bars) freq).upDays
          = (display_kline_stats (mkKlineDF ("w") bars) ("w")).upDays
      ∧ (display_kline_stats (mkKlineDF freq bars) freq).downDays
          = (display_kline_stats (mkKlineDF ("w") bars) ("w")).downDays
      ∧ (display_kline_stats (mkKlineDF freq bars) freq).flatDays
          = (display_kline_stats (mkKlineDF ("w") bars) ("w")).flatDays
      ∧ (display_kline_stats (mkKlineDF freq bars) freq).avgVolume
          = (display_kline_stats (mkKlineDF ("w") bars) ("w")).avgVolume
      ∧ (display_kline_stats (mkKlineDF freq bars) freq).maxVolume
          = (display_kline_stats (mkKlineDF ("w") bars) ("w")).maxVolume
      ∧ (display_kline_stats (mkKlineDF freq bars) freq).priceChange
          = (display_kline_stats (mkKlineDF ("w") bars) ("w")).priceChange
      ∧ (display_kline_stats (mkKlineDF freq bars) freq).priceChangePct
          = (display_kline_stats (mkKlineDF ("w") bars) ("w")).priceChangePct := by
  have hm : mkKlineDF freq bars = ⟨false, true, bars⟩ := mkKlineDF_minute freq hf bars
  have hw : mkKlineDF ("w") bars = ⟨false, true, bars⟩ := by
    unfold mkKlineDF
    rw [if_neg (by decide), if_pos (by decide)]
  rw [hm, hw]
  refine ⟨?_, ?_, rfl, rfl, rfl, rfl, rfl, rfl, rfl⟩
  · rw [stats_upDays, pctChgSeries_false]
  · rw [stats_downDays, pctChgSeries_false]

/-- Witness for C2's amended statement at two rising 5-minute bars. -/
theorem C2_minute_classification_witness :
    (display_kline_stats (mkKlineDF ("5m") barsC2) ("5m")).upDays
      = ((derivePct (barsC2.map Bar.close)).filter fun c => 0 < c).length :=
  (C2_minute_classification ("5m") (by decide) barsC2).1

/-- Counterexample to claim C2 as stated: for the 5-minute series with closes
10 and 11 the routine reports one rising bar, not up = 0, down = 0 and
flat = total. -/
theorem C2_minute_counterexample :
    ¬ ((display_kline_stats (mkKlineDF ("5m") barsC2) ("5m")).upDays = 0
        ∧ (display_kline_stats (mkKlineDF ("5m") barsC2) ("5m")).downDays = 0
        ∧ (display_kline_stats (mkKlineDF ("5m") barsC2) ("5m")).flatDays
            = (display_kline_stats (mkKlineDF ("5m") barsC2) ("5m")).totalDays) := by
  have h : (display_kline_stats (mkKlineDF ("5m") barsC2) ("5m")).upDays = 1 := by
    norm_num [display_kline_stats, mkKlineDF, pctChgSeries, derivePct, pctChangeList,
      minuteFreqs, barsC2, List.filter]
  intro hc
  rw [hc.1] at h
  exact absurd h (by norm_num)

theorem digit03_not_nil (t : List Char)
    (h : (t.headD ' ' == '0' || t.headD ' ' == '3') = true) : t ≠ [] := by
  intro he
  rw [he] at h
  exact absurd h (by decide)

theorem digit6_not_nil (t : List Char) (h : (t.headD ' ' == '6') = true) : t ≠ [] := by
  intro he
  rw [he] at h
  exact absurd h (by decide)

/-- Claim C6: the normalizer implements exactly this total mapping on the
trimmed input: empty after trimming fails with EmptyInput; a trimmed input
starting with "sz." or "sh." is returned unchanged without further
validation; otherwise a leading '0' or '3' gets the "sz." prefix, a leading
'6' gets the "sh." prefix, and any other leading character fails with
UnrecognizedFormat; with the listed concrete inputs mapping as stated. -/
theorem C6_normalizer_mapping :
    (∀ s : List Char, pyStrip s = [] →
        format_stock_code s = Except.error FormatError.EmptyInput)
    ∧ (∀ s : List Char,
        (startsWithChars szPre (pyStrip s) || startsWithChars shPre (pyStrip s)) = true →
        format_stock_code s = Except.ok (pyStrip s))
    ∧ (∀ s : List Char,
        (startsWithChars szPre (pyStrip s) || startsWithChars shPre (pyStrip s)) = false →
        ((pyStrip s).headD ' ' == '0' || (pyStrip s).headD ' ' == '3') = true →
        format_stock_code s = Except.ok (szPre ++ pyStrip s))
    ∧ (∀ s : List Char,
        (startsWithChars szPre (pyStrip s) || startsWithChars shPre (pyStrip s)) = false →
        ((pyStrip s).headD ' ' == '0' || (pyStrip s).headD ' ' == '3') = false →
        ((pyStrip s).headD ' ' == '6') = true →
        format_stock_code s = Except.ok (shPre ++ pyStrip s))
    ∧ (∀ s : List Char, pyStrip s ≠ [] →
        (startsWithChars szPre (pyStrip s) || startsWithChars shPre (pyStrip s)) = false →
        ((pyStrip s).headD ' ' == '0' || (pyStrip s).headD ' ' == '3') = false →
        ((pyStrip s).headD ' ' == '6') = false →
        format_stock_code s = Except.error (FormatError.UnrecognizedFormat (pyStrip s)))
    ∧ format_stock_code ("000001".data) = Except.ok ("sz.000001".data)
    ∧ format_stock_code ("600000".data) = Except.ok ("sh.600000".data)
    ∧ format_stock_code ("300750".data) = Except.ok ("sz.300750".data)
    ∧ format_stock_code ("002594".data) = Except.ok ("sz.002594".data)
    ∧ format_stock_code ("sz.000001".data) = Except.ok ("sz.000001".data)
    ∧ format_stock_code ("abc".data)
        = Except.error (FormatError.UnrecognizedFormat ("abc".data))
    ∧ format_stock_code ("".data) = Except.error FormatError.EmptyInput
    ∧ format_stock_code ("   ".data) = Except.error FormatError.EmptyInput := by
  refine ⟨?_, ?_, ?_, ?_, ?_, rfl, rfl, rfl, rfl, rfl, rfl, rfl, rfl⟩
  · intro s h
    unfold format_stock_code
    rw [fsc_full_empty s h]
  · intro s h1
    unfold format_stock_code
    rw [fsc_full_canonical s (canonical_not_nil _ h1) h1]
  · intro s h1 h2
    unfold format_stock_code
    rw [fsc_full_sz s (digit03_not_nil _ h2) h1 h2]
  · intro s h1 h2 h3
    unfold format_stock_code
    rw [fsc_full_sh s (digit6_not_nil _ h3) h1 h2 h3]
  · intro s h0 h1 h2 h3
    unfold format_stock_code
    rw [fsc_full_unrecognized s h0 h1 h2 h3]

/-- Witness for C6: a whitespace-only input fails with EmptyInput. -/
theorem C6_normalizer_mapping_witness :
    format_stock_code ([' ']) = Except.error FormatError.EmptyInput :=
  C6_normalizer_mapping.1 ([' ']) (by decide)

/-- Claim C7 (amended): the normalizer is deterministic and hands its result
back to the caller, but it is not silent: on each failing branch it prints
the user-facing error messages itself and on success it prints nothing; the
caller's normalization step forwards the result and prints nothing more. -/
theorem C7_effects (s : List Char) :
    (format_stock_code_full s).fst = format_stock_code s
    ∧ (∀ r : List Char, (format_stock_code_full s).fst = Except.ok r →
        (format_stock_code_full s).snd = [])
    ∧ (∀ e : FormatError, (format_stock_code_full s).fst = Except.error e →
        (format_stock_code_full s).snd ≠ [])
    ∧ (kline_normalize_step s).snd = (format_stock_code_full s).snd := by
  refine ⟨rfl, ?_, ?_, ?_⟩
  · intro r h
    rcases fsc_cases s with h0 | ⟨h0, h1⟩ | ⟨h0, h1, h2⟩ | ⟨h0, h1, h2, h3⟩ | ⟨h0, h1, h2, h3⟩
    · rw [fsc_full_empty s h0] at h
      simp at h
    · rw [fsc_full_canonical s h0 h1]
    · rw [fsc_full_sz s h0 h1 h2]
    · rw [fsc_full_sh s h0 h1 h2 h3]
    · rw [fsc_full_unrecognized s h0 h1 h2 h3] at h
      simp at h
  · intro e h
    rcases fsc_cases s with h0 | ⟨h0, h1⟩ | ⟨h0, h1, h2⟩ | ⟨h0, h1, h2, h3⟩ | ⟨h0, h1, h2, h3⟩
    · rw [fsc_full_empty s h0]
      simp
    · rw [fsc_full_canonical s h0 h1] at h
      simp at h
    · rw [fsc_full_sz s h0 h1 h2] at h
      simp at h
    · rw [fsc_full_sh s h0 h1 h2 h3] at h
      simp at h
    · rw [fsc_full_unrecognized s h0 h1 h2 h3]
      simp
  · cases hr : format_stock_code_full s with
    | mk res msgs =>
      unfold kline_normalize_step
      rw [hr]
      cases res <;> rfl

/-- Witness for C7: a concrete failing input on which the error branch prints. -/
theorem C7_effects_witness : (format_stock_code_full ("xx".data)).snd ≠ [] :=
  (C7_effects ("xx".data)).2.2.1
    (FormatError.UnrecognizedFormat (pyStrip ("xx".data))) (by rfl)

/-- Counterexample to claim C7 as stated: on the unrecognized input "abc" the
normalizer itself prints the user-facing error messages, so it is not free of
console output. -/
theorem C7_prints_counterexample : (format_stock_code_full ("abc".data)).snd ≠ [] := by
  decide

/-- Claim C8 (amended): normalization is idempotent on its successes: whenever
it succeeds, re-normalizing the returned ticker returns it unchanged; and on
a trimmed string already starting with "sz." or "sh." it is a no-op (an
untrimmed such string is returned in trimmed form instead). -/
theorem C8_idempotence :
    (∀ s r : List Char, format_stock_code s = Except.ok r →
        format_stock_code r = Except.ok r)
    ∧ (∀ s : List Char, pyStrip s = s →
        (startsWithChars szPre s || startsWithChars shPre s) = true →
        format_stock_code s = Except.ok s) := by
  constructor
  · intro s r h
    rcases fsc_ok_cases s r h with ⟨hr, hsw⟩ | hr | hr
    · exact fsc_canonical_noop r (by rw [hr]; exact pyStrip_idem s) hsw
    · have htrim : pyStrip r = r := by
        rw [hr]
        exact pyStrip_cons3 's' 'z' '.' (by decide) (by decide) s
      have hsw : (startsWithChars szPre r || startsWithChars shPre r) = true := by
        rw [hr]
        simp [startsWithChars_append szPre (pyStrip s)]
      exact fsc_canonical_noop r htrim hsw
    · have htrim : pyStrip r = r := by
        rw [hr]
        exact pyStrip_cons3 's' 'h' '.' (by decide) (by decide) s
      have hsw : (startsWithChars szPre r || startsWithChars shPre r) = true := by
        rw [hr]
        simp [startsWithChars_append shPre (pyStrip s)]
      exact fsc_canonical_noop r htrim hsw
  · exact fsc_canonical_noop

/-- Witness for C8 at a canonical Shanghai ticker. -/
theorem C8_idempotence_witness :
    format_stock_code ("sh.600000".data) = Except.ok ("sh.600000".data) :=
  C8_idempotence.2 ("sh.600000".data) (by decide) (by decide)

/-- Counterexample to C8's no-op clause as stated: an input with a trailing
blank that starts with "sz." is returned in trimmed form, not unchanged. -/
theorem C8_noop_counterexample :
    startsWithChars szPre ("sz.000001 ".data) = true
    ∧ format_stock_code ("sz.000001 ".data) = Except.ok ("sz.000001".data)
    ∧ ("sz.000001".data) ≠ ("sz.000001 ".data) :=
  ⟨by decide, by rfl, by decide⟩
